import Mathlib

/- Shallow embedding of the client-side session and authorization pipeline:
   the localStorage token slots, the axios request and response interceptors,
   the AuthProvider state and its mutations, the OAuth callback handler, and
   the route guards. Each definition is translated from the corresponding
   JavaScript source. -/

/-- User record returned by the backend (shape per the data model). -/
structure User where
  id : String
  email : String
deriving DecidableEq, Repr

/-- Durable client-side storage slots used by the code: the accessToken and
refreshToken keys of localStorage. A value of none models an absent key. -/
structure LocalStorage where
  accessToken : Option String
  refreshToken : Option String
deriving DecidableEq, Repr

/-- JavaScript truthiness of a getItem result: null is falsy, and so is the
empty string; every other string is truthy. -/
def jsTruthy : Option String → Bool
  | none => false
  | some s => s != ""

/-- Axios request configuration, with the fields the interceptors touch: the
request url, the Authorization header, and the per-request retry marker. -/
structure RequestConfig where
  url : String
  authorizationHeader : Option String
  _retry : Bool
deriving DecidableEq, Repr

/-- Request interceptor: reads the accessToken from storage; when truthy,
sets the Authorization header to a Bearer credential; otherwise the
configuration passes through unchanged. -/
def requestInterceptor (storage : LocalStorage) (config : RequestConfig) :
    RequestConfig :=
  match storage.accessToken with
  | some token =>
      if token ≠ "" then
        { config with authorizationHeader := some ("Bearer " ++ token) }
      else config
  | none => config

/-- Axios error as seen by the response interceptor: the response status when
a response arrived (none models a network failure with no response), and the
originating request configuration. -/
structure AxiosError where
  responseStatus : Option Nat
  config : RequestConfig
deriving DecidableEq, Repr

/-- Result of running the response error interceptor: the updated storage,
the window location assignment when one is issued, whether the promise is
rejected back to the caller, and the (possibly marked) error it carries. -/
structure RespInterceptResult where
  storage : LocalStorage
  windowLocation : Option String
  rejected : Bool
  error : AxiosError
deriving DecidableEq, Repr

/-- Response error interceptor: when the status is 401 and the originating
request is not yet marked, it marks the request, removes both tokens from
storage, assigns the window location to the login entry point, and rejects;
in every other case it rejects the unchanged error with no side effect. -/
def responseErrorInterceptor (storage : LocalStorage) (error : AxiosError) :
    RespInterceptResult :=
  if error.responseStatus = some 401 ∧ error.config._retry = false then
    { storage := { storage with accessToken := none, refreshToken := none }
      windowLocation := some "/auth/login"
      rejected := true
      error := { error with config := { error.config with _retry := true } } }
  else
    { storage := storage, windowLocation := none, rejected := true,
      error := error }

/-- Toast notification kinds emitted through the toast library. -/
inductive ToastKind where
  | success
  | error
deriving DecidableEq, Repr

/-- Toast notification: kind and message. -/
structure Toast where
  kind : ToastKind
  message : String
deriving DecidableEq, Repr

/-- In-memory application state relevant to the session slice: the storage,
the AuthProvider user and isInitialized states, the react-query cache (the
currentUser entry and the remaining page-data entries, kept abstract as a
list of keys), the toasts emitted so far, and the window location when a
full-page navigation has been assigned. -/
structure AppState where
  storage : LocalStorage
  user : Option User
  isInitialized : Bool
  currentUserCache : Option User
  otherCache : List String
  toasts : List Toast
  windowLocation : Option String
deriving DecidableEq, Repr

/-- Freshly mounted application over a given storage: AuthProvider starts
with useState null for the user and useState false for isInitialized, and
the query cache is empty. -/
def startupState (storage : LocalStorage) : AppState :=
  { storage := storage, user := none, isInitialized := false,
    currentUserCache := none, otherCache := [], toasts := [],
    windowLocation := none }

/-- Effect of an assignment to window.location.href: the browser performs a
full document navigation, so the single-page application restarts at the
target with the same durable storage; all in-memory provider state and
caches are those of a fresh mount. -/
def reloadAt (loc : String) (st : AppState) : AppState :=
  { startupState st.storage with windowLocation := some loc }

/-- Auth response returned by the login and register endpoints. -/
structure AuthResponse where
  access_token : String
  user : User
deriving DecidableEq, Repr

/-- Derived isLoading flag exposed by the AuthProvider value: the loading
flag of the currentUser query or-ed with the negation of isInitialized. -/
def isLoadingValue (queryIsLoading : Bool) (isInitialized : Bool) : Bool :=
  queryIsLoading || !isInitialized

/-- What a route guard renders: the loading screen, a Navigate element with
its replace flag, or its children (the requested screen). -/
inductive RenderResult where
  | loading
  | redirect (target : String) (replace : Bool)
  | children
deriving DecidableEq, Repr

/-- ProtectedRoute: loading screen while isLoading; Navigate to the login
screen with replace when there is no user; otherwise the children. -/
def ProtectedRoute (isLoading : Bool) (user : Option User) : RenderResult :=
  if isLoading then .loading
  else if user.isNone then .redirect "/auth/login" true
  else .children

/-- PublicRoute: loading screen while isLoading; Navigate to the dashboard
with replace when a user is present; otherwise the children. -/
def PublicRoute (isLoading : Bool) (user : Option User) : RenderResult :=
  if isLoading then .loading
  else if user.isSome then .redirect "/dashboard" true
  else .children

/-- Screens of the application reachable through the route tables. -/
inductive Screen where
  | login
  | register
  | callback
  | dashboard
  | emails
  | calendar
  | analytics
  | settings
  | integrations
  | credits
deriving DecidableEq, Repr

/-- Element produced by an inner route table: a screen or a Navigate. -/
inductive PageElement where
  | screen (s : Screen)
  | navigateTo (target : String) (replace : Bool)
deriving DecidableEq, Repr

/-- Inner routes of the auth zone, matched against the sub-path after
/auth/: login, register, callback, and a catch-all Navigate to login. -/
def authZoneRoutes (sub : String) : PageElement :=
  if sub = "login" then .screen .login
  else if sub = "register" then .screen .register
  else if sub = "callback" then .screen .callback
  else .navigateTo "/auth/login" true

/-- Inner routes of the application zone, matched against the sub-path:
the seven feature pages, and both the root and the catch-all Navigate to
the dashboard. -/
def appZoneRoutes (sub : String) : PageElement :=
  if sub = "dashboard" then .screen .dashboard
  else if sub = "emails" then .screen .emails
  else if sub = "calendar" then .screen .calendar
  else if sub = "analytics" then .screen .analytics
  else if sub = "settings" then .screen .settings
  else if sub = "integrations" then .screen .integrations
  else if sub = "credits" then .screen .credits
  else .navigateTo "/dashboard" true

/-- Whether a page element keeps back-navigation history intact: a Navigate
must carry the replace flag; a plain screen trivially does. -/
def replacesHistory : PageElement → Bool
  | .navigateTo _ r => r
  | .screen _ => true

/-- Success handler of the login mutation: store the returned access token,
set the user, put the user into the currentUser cache entry, and emit the
welcome toast. -/
def loginOnSuccess (st : AppState) (data : AuthResponse) : AppState :=
  { st with
    storage := { st.storage with accessToken := some data.access_token }
    user := some data.user
    currentUserCache := some data.user
    toasts := st.toasts ++ [⟨.success, "Welcome back!"⟩] }

/-- Error handler of the login mutation: emit the error toast with the
server-provided detail or the generic message; nothing else changes. -/
def loginOnError (st : AppState) (detail : Option String) : AppState :=
  { st with toasts := st.toasts ++ [⟨.error, detail.getD "Login failed"⟩] }

/-- Success handler of the register mutation: identical shape to login,
with the account-created toast. -/
def registerOnSuccess (st : AppState) (data : AuthResponse) : AppState :=
  { st with
    storage := { st.storage with accessToken := some data.access_token }
    user := some data.user
    currentUserCache := some data.user
    toasts := st.toasts ++ [⟨.success, "Account created successfully!"⟩] }

/-- Error handler of the register mutation: toast only. -/
def registerOnError (st : AppState) (detail : Option String) : AppState :=
  { st with
    toasts := st.toasts ++ [⟨.error, detail.getD "Registration failed"⟩] }

/-- Whether the server-side logout call succeeded; the API helper catches
its own failure, so both outcomes reach onSettled. -/
inductive ServerCallResult where
  | ok
  | failed
deriving DecidableEq, Repr

/-- The onSettled handler of the logout mutation: remove both tokens from
storage, clear the user, clear the whole query cache, and emit the
logged-out toast. -/
def logoutSettled (st : AppState) : AppState :=
  { st with
    storage := { st.storage with accessToken := none, refreshToken := none }
    user := none
    currentUserCache := none
    otherCache := []
    toasts := st.toasts ++ [⟨.success, "Logged out successfully"⟩] }

/-- The logout operation: the API helper swallows any server failure, and
onSettled runs in either outcome. -/
def logout (st : AppState) (server : ServerCallResult) : AppState :=
  match server with
  | .ok => logoutSettled st
  | .failed => logoutSettled st

/-- Outcome of the getCurrentUser request issued by the currentUser query:
a user on success, or a failure carrying the response status when one
arrived (none models a network failure with no response). -/
inductive FetchOutcome where
  | ok (u : User)
  | failed (status : Option Nat)
deriving DecidableEq, Repr

/-- Success handler of the currentUser query: set the user and mark the
provider initialized. -/
def currentUserOnSuccess (st : AppState) (data : User) : AppState :=
  { st with user := some data, isInitialized := true }

/-- Error handler of the currentUser query: remove the accessToken from
storage, clear the user, and mark the provider initialized. -/
def currentUserOnError (st : AppState) : AppState :=
  { st with
    storage := { st.storage with accessToken := none }
    user := none
    isInitialized := true }

/-- The mount effect of the AuthProvider: when the stored token is falsy,
mark the provider initialized immediately; otherwise do nothing (the
enabled currentUser query will settle the state). -/
def initEffect (st : AppState) : AppState :=
  if jsTruthy st.storage.accessToken then st
  else { st with isInitialized := true }

/-- Fresh axios request configuration for the getCurrentUser call: no
Authorization header yet and an unset retry marker. -/
def meRequestConfig : RequestConfig :=
  { url := "/api/auth/me", authorizationHeader := none, _retry := false }

/-- Startup session resolution: when the stored token is truthy the
currentUser query runs and settles through its handlers — a failing
response first passes through the response error interceptor (which, on
401, tears storage down and assigns the window location) and then reaches
the query error handler; when the token is falsy only the mount effect
runs. -/
def resolveSession (st : AppState) (fetch : FetchOutcome) : AppState :=
  if jsTruthy st.storage.accessToken then
    match fetch with
    | .ok u => currentUserOnSuccess st u
    | .failed status =>
        let r := responseErrorInterceptor st.storage
          { responseStatus := status, config := meRequestConfig }
        currentUserOnError
          { st with
            storage := r.storage
            windowLocation :=
              if r.windowLocation.isSome then r.windowLocation
              else st.windowLocation }
  else initEffect st

/-- The OAuth callback handler result: the storage after the handler, the
react-router navigation target it issues, and the toast it emits. -/
structure CallbackResult where
  storage : LocalStorage
  navTarget : String
  toast : Toast
deriving DecidableEq, Repr

/-- The OAuth callback handler: a truthy error parameter is reported and
sends the client to the login screen; otherwise a truthy token parameter is
written to storage and the client goes to the dashboard; otherwise the
missing token is reported and the client goes to the login screen. The
navigation is a client-side navigate, not a full page load. -/
def handleCallback (storage : LocalStorage) (token error : Option String) :
    CallbackResult :=
  if jsTruthy error then
    { storage := storage
      navTarget := "/auth/login"
      toast := ⟨.error, "Authentication failed: " ++ error.getD ""⟩ }
  else if jsTruthy token then
    { storage := { storage with accessToken := token }
      navTarget := "/dashboard"
      toast := ⟨.success, "Successfully signed in!"⟩ }
  else
    { storage := storage
      navTarget := "/auth/login"
      toast := ⟨.error, "No authentication token received"⟩ }

/-- Outcome of a login or register call. -/
inductive MutationOutcome where
  | ok (data : AuthResponse)
  | err (detail : Option String)
deriving DecidableEq, Repr

/-- Events of the session slice: the operations the spec names, each with
the outcome of its network call where one is involved. An apiCallError is
any authorized page call that failed, carrying its status (none for a
network failure) and its originating request configuration. -/
inductive Event where
  | login (outcome : MutationOutcome)
  | register (outcome : MutationOutcome)
  | logoutEv (server : ServerCallResult)
  | sessionInit (fetch : FetchOutcome)
  | apiCallError (status : Option Nat) (cfg : RequestConfig)
  | oauthCallback (token : Option String) (error : Option String)
  | forgotPassword (okFlag : Bool)
  | resetPassword (okFlag : Bool)
deriving DecidableEq, Repr

/-- One step of the session slice: dispatch an event to the handler the
code registers for it. A failing page call runs through the response error
interceptor; when that assigns the window location the application reloads
at the target. The OAuth callback only touches storage (its navigation is
client-side, so the in-memory provider state survives). Forgot and reset
password only emit toasts. -/
def step (st : AppState) (e : Event) : AppState :=
  match e with
  | .login (.ok data) => loginOnSuccess st data
  | .login (.err detail) => loginOnError st detail
  | .register (.ok data) => registerOnSuccess st data
  | .register (.err detail) => registerOnError st detail
  | .logoutEv server => logout st server
  | .sessionInit fetch => resolveSession st fetch
  | .apiCallError status cfg =>
      let r := responseErrorInterceptor st.storage
        { responseStatus := status, config := cfg }
      match r.windowLocation with
      | some loc => reloadAt loc { st with storage := r.storage }
      | none => { st with storage := r.storage }
  | .oauthCallback token error =>
      { st with storage := (handleCallback st.storage token error).storage,
                toasts := st.toasts ++ [(handleCallback st.storage token error).toast] }
  | .forgotPassword okFlag =>
      { st with toasts := st.toasts ++
          [if okFlag then ⟨.success, "Password reset email sent!"⟩
           else ⟨.error, "Failed to send reset email"⟩] }
  | .resetPassword okFlag =>
      { st with toasts := st.toasts ++
          [if okFlag then ⟨.success, "Password reset successfully!"⟩
           else ⟨.error, "Password reset failed"⟩] }

/-- Absence of a mixed session state: the stored access token is truthy
exactly when a user is present in memory. -/
def mixedFree (st : AppState) : Bool :=
  jsTruthy st.storage.accessToken == st.user.isSome

/-- Wellformedness of an event: login and register success responses carry
a nonempty access token (the backend contract). -/
def eventWellformed : Event → Bool
  | .login (.ok data) => data.access_token != ""
  | .register (.ok data) => data.access_token != ""
  | _ => true

/-- Helper: a truthy storage value is in particular a present key. -/
theorem jsTruthy_ne_none {o : Option String} (h : jsTruthy o = true) :
    o ≠ none := by
  cases o with
  | none => simp [jsTruthy] at h
  | some s => simp

/-- C1: on a 401 response whose originating request is not yet marked, the
response interceptor performs the teardown exactly once — it removes the
stored access token (and refresh token), assigns the window location to the
login entry point (a full navigation, after which the freshly mounted
provider has no user), marks the request so that a second interception of
the same request performs no further teardown, and still rejects the error
to its original caller. -/
theorem response_401_teardown_once (storage : LocalStorage) (er : AxiosError)
    (h401 : er.responseStatus = some 401)
    (hretry : er.config._retry = false) :
    (responseErrorInterceptor storage er).storage.accessToken = none ∧
    (responseErrorInterceptor storage er).storage.refreshToken = none ∧
    (responseErrorInterceptor storage er).windowLocation = some "/auth/login" ∧
    (responseErrorInterceptor storage er).rejected = true ∧
    (responseErrorInterceptor storage er).error.config._retry = true ∧
    (∀ storage2 : LocalStorage,
      (responseErrorInterceptor storage2
          (responseErrorInterceptor storage er).error).storage = storage2 ∧
      (responseErrorInterceptor storage2
          (responseErrorInterceptor storage er).error).windowLocation = none ∧
      (responseErrorInterceptor storage2
          (responseErrorInterceptor storage er).error).rejected = true) ∧
    (∀ st : AppState, (reloadAt "/auth/login" st).user = none) := by
  simp [responseErrorInterceptor, reloadAt, startupState, h401, hretry]

/-- Witness for C1 at a concrete 401 error on a page call. -/
theorem response_401_teardown_once_witness :
    (responseErrorInterceptor ⟨some "t1", some "r1"⟩
        ⟨some 401, ⟨"/api/emails", none, false⟩⟩).storage.accessToken = none ∧
    (responseErrorInterceptor ⟨some "t1", some "r1"⟩
        ⟨some 401, ⟨"/api/emails", none, false⟩⟩).windowLocation =
      some "/auth/login" :=
  ⟨(response_401_teardown_once ⟨some "t1", some "r1"⟩
      ⟨some 401, ⟨"/api/emails", none, false⟩⟩ rfl rfl).1,
   (response_401_teardown_once ⟨some "t1", some "r1"⟩
      ⟨some 401, ⟨"/api/emails", none, false⟩⟩ rfl rfl).2.2.1⟩

/-- C2: while the provider is not initialized, both route guards render the
loading indicator for every user state and every query-loading state —
never the requested screen and never a redirect. -/
theorem guard_loading_before_initialized (queryIsLoading : Bool)
    (user : Option User) :
    ProtectedRoute (isLoadingValue queryIsLoading false) user = .loading ∧
    PublicRoute (isLoadingValue queryIsLoading false) user = .loading := by
  simp [ProtectedRoute, PublicRoute, isLoadingValue]

/-- C5: for every invocation of logout, whatever the server outcome, the
local teardown happens: both tokens removed, user cleared, the whole query
cache cleared, and completion reported through the logged-out toast. -/
theorem logout_local_teardown (st : AppState) (server : ServerCallResult) :
    (logout st server).storage.accessToken = none ∧
    (logout st server).storage.refreshToken = none ∧
    (logout st server).user = none ∧
    (logout st server).currentUserCache = none ∧
    (logout st server).otherCache = [] ∧
    (logout st server).toasts =
      st.toasts ++ [⟨.success, "Logged out successfully"⟩] := by
  cases server <;> simp [logout, logoutSettled]

/-- C6: the request interceptor attaches the stored token as a Bearer
credential in the Authorization header and changes nothing else (a record
update of that single field); with no stored token the request passes
through unchanged. -/
theorem request_bearer_attachment (storage : LocalStorage)
    (config : RequestConfig) :
    (∀ t, storage.accessToken = some t → t ≠ "" →
      requestInterceptor storage config =
        { config with authorizationHeader := some ("Bearer " ++ t) }) ∧
    (storage.accessToken = none →
      requestInterceptor storage config = config) := by
  constructor
  · intro t ht hne
    simp [requestInterceptor, ht, hne]
  · intro h
    simp [requestInterceptor, h]

/-- Witness for C6 at a concrete token and a concrete bare request. -/
theorem request_bearer_attachment_witness :
    requestInterceptor ⟨some "t1", none⟩ ⟨"/api/emails", none, false⟩ =
      ⟨"/api/emails", some ("Bearer " ++ "t1"), false⟩ ∧
    requestInterceptor ⟨none, none⟩ ⟨"/api/emails", none, false⟩ =
      ⟨"/api/emails", none, false⟩ :=
  ⟨(request_bearer_attachment ⟨some "t1", none⟩
      ⟨"/api/emails", none, false⟩).1 "t1" rfl (by decide),
   (request_bearer_attachment ⟨none, none⟩
      ⟨"/api/emails", none, false⟩).2 rfl⟩

/-- C10: when the callback route carries a truthy error parameter, the
error branch wins whatever the token parameter is: the failure is reported
with an error toast, the client is sent to the login screen, and storage is
untouched — the token is never written. -/
theorem oauth_error_precedence (storage : LocalStorage)
    (token : Option String) (e : String) (hne : e ≠ "") :
    (handleCallback storage token (some e)).navTarget = "/auth/login" ∧
    (handleCallback storage token (some e)).storage = storage ∧
    (handleCallback storage token (some e)).toast =
      ⟨.error, "Authentication failed: " ++ e⟩ := by
  simp [handleCallback, jsTruthy, hne]

/-- Witness for C10 with both parameters present and truthy. -/
theorem oauth_error_precedence_witness :
    (handleCallback ⟨none, none⟩ (some "tok") (some "denied")).navTarget =
      "/auth/login" ∧
    (handleCallback ⟨none, none⟩ (some "tok") (some "denied")).storage =
      ⟨none, none⟩ :=
  ⟨(oauth_error_precedence ⟨none, none⟩ (some "tok") "denied" (by decide)).1,
   (oauth_error_precedence ⟨none, none⟩ (some "tok") "denied" (by decide)).2.1⟩

/-- C3 counterexample: with the store initialized but the currentUser query
in its loading state (reachable, e.g. right after the OAuth callback writes
a token into an already-initialized anonymous session, which enables the
query), the public guard renders the loading screen instead of the
requested screen, although the store is initialized and no user is
present. -/
theorem guard_initialized_counterexample :
    PublicRoute (isLoadingValue true true) none = RenderResult.loading ∧
    PublicRoute (isLoadingValue true true) none ≠ RenderResult.children := by
  decide

/-- C3 amended: once the store is initialized and the derived isLoading
flag is off (no currentUser fetch pending), a protected route with no user
redirects to the login screen, a public route with a user redirects to the
dashboard, every other combination renders the requested screen, and every
redirect — the guards and both catch-all route tables — replaces
history. -/
theorem guard_decisions_once_settled (user : Option User) :
    (ProtectedRoute (isLoadingValue false true) user =
      if user.isNone then RenderResult.redirect "/auth/login" true
      else RenderResult.children) ∧
    (PublicRoute (isLoadingValue false true) user =
      if user.isSome then RenderResult.redirect "/dashboard" true
      else RenderResult.children) ∧
    (∀ sub : String, replacesHistory (authZoneRoutes sub) = true) ∧
    (∀ sub : String, replacesHistory (appZoneRoutes sub) = true) := by
  refine ⟨?_, ?_, ?_, ?_⟩
  · cases user <;> simp [ProtectedRoute, isLoadingValue]
  · cases user <;> simp [PublicRoute, isLoadingValue]
  · intro sub
    unfold authZoneRoutes
    split_ifs <;> rfl
  · intro sub
    unfold appZoneRoutes
    split_ifs <;> rfl

/-- C4: the startup session resolution always ends initialized; with a
falsy stored token it ends with no user and untouched storage; with a
truthy token and a successful fetch it ends with that user and untouched
storage; with a truthy token and any failure (any status, or a network
failure with no response) it ends with the access token removed and no
user. -/
theorem resolveSession_settles (storage : LocalStorage)
    (fetch : FetchOutcome) :
    (resolveSession (startupState storage) fetch).isInitialized = true ∧
    (jsTruthy storage.accessToken = false →
      (resolveSession (startupState storage) fetch).user = none ∧
      (resolveSession (startupState storage) fetch).storage = storage) ∧
    (∀ u, jsTruthy storage.accessToken = true → fetch = FetchOutcome.ok u →
      (resolveSession (startupState storage) fetch).user = some u ∧
      (resolveSession (startupState storage) fetch).storage = storage) ∧
    (∀ status, jsTruthy storage.accessToken = true →
      fetch = FetchOutcome.failed status →
      (resolveSession (startupState storage) fetch).storage.accessToken =
        none ∧
      (resolveSession (startupState storage) fetch).user = none) := by
  refine ⟨?_, ?_, ?_, ?_⟩
  · by_cases h : jsTruthy storage.accessToken
    · cases fetch <;>
        simp [resolveSession, startupState, h, currentUserOnSuccess,
          currentUserOnError, initEffect]
    · simp at h
      simp [resolveSession, startupState, h, initEffect]
  · intro h
    simp [resolveSession, startupState, h, initEffect]
  · intro u h hf
    subst hf
    simp [resolveSession, startupState, h, currentUserOnSuccess]
  · intro status h hf
    subst hf
    simp [resolveSession, startupState, h, currentUserOnError]

/-- Witness for C4: a present token resolved successfully, and a present
token whose resolution fails with a 401. -/
theorem resolveSession_settles_witness :
    (resolveSession (startupState ⟨some "t1", none⟩)
        (FetchOutcome.ok ⟨"u1", "a@b.com"⟩)).user = some ⟨"u1", "a@b.com"⟩ ∧
    (resolveSession (startupState ⟨some "t1", none⟩)
        (FetchOutcome.failed (some 401))).storage.accessToken = none :=
  ⟨((resolveSession_settles ⟨some "t1", none⟩
        (FetchOutcome.ok ⟨"u1", "a@b.com"⟩)).2.2.1
      ⟨"u1", "a@b.com"⟩ (by decide) rfl).1,
   ((resolveSession_settles ⟨some "t1", none⟩
        (FetchOutcome.failed (some 401))).2.2.2
      (some 401) (by decide) rfl).1⟩

/-- C9 counterexample: with a user already authenticated as u1, a login
success carrying a different identity u2 replaces the in-memory identity
directly — no intervening Anonymous state. -/
theorem login_replaces_identity_counterexample :
    (loginOnSuccess
        ⟨⟨some "t1", none⟩, some ⟨"u1", "a@b.com"⟩, true,
          some ⟨"u1", "a@b.com"⟩, [], [], none⟩
        ⟨"t2", ⟨"u2", "c@d.com"⟩⟩).user = some ⟨"u2", "c@d.com"⟩ ∧
    (loginOnSuccess
        ⟨⟨some "t1", none⟩, some ⟨"u1", "a@b.com"⟩, true,
          some ⟨"u1", "a@b.com"⟩, [], [], none⟩
        ⟨"t2", ⟨"u2", "c@d.com"⟩⟩).user ≠ some ⟨"u1", "a@b.com"⟩ := by
  decide

/-- C9 amended: the login and register success handlers install the
identity of the response unconditionally — in particular they replace a
currently authenticated identity directly; only the route guard keeps the
auth screens unreachable while a user is present, by redirecting to the
dashboard. -/
theorem login_register_apply_unconditionally (st : AppState)
    (data : AuthResponse) :
    (loginOnSuccess st data).user = some data.user ∧
    (registerOnSuccess st data).user = some data.user ∧
    (∀ u : User, PublicRoute (isLoadingValue false true) (some u) =
      RenderResult.redirect "/dashboard" true) := by
  refine ⟨rfl, rfl, ?_⟩
  intro u
  simp [PublicRoute, isLoadingValue]

/-- Helper: truthiness of a storage value unfolded to its witness. -/
theorem jsTruthy_iff {o : Option String} :
    jsTruthy o = true ↔ ∃ s, o = some s ∧ s ≠ "" := by
  cases o <;> simp [jsTruthy]

/-- C7 counterexample: a network failure of the startup session resolution
(no response at all, so not an authorization failure, and not logout)
removes the stored access token. -/
theorem token_removal_triggers_counterexample :
    (startupState ⟨some "t1", none⟩).storage.accessToken = some "t1" ∧
    (step (startupState ⟨some "t1", none⟩)
        (Event.sessionInit (FetchOutcome.failed none))).storage.accessToken =
      none := by
  decide

/-- C7 amended: starting from a truthy stored token, an event removes the
access token from storage exactly when it is an unmarked 401 on an
authorized call, a logout, or a failing startup session resolution (any
status, network failures included); no other event removes it. -/
theorem token_removal_triggers (st : AppState) (e : Event)
    (hpresent : jsTruthy st.storage.accessToken = true) :
    (step st e).storage.accessToken = none ↔
      ((∃ cfg, e = Event.apiCallError (some 401) cfg ∧ cfg._retry = false) ∨
       (∃ server, e = Event.logoutEv server) ∨
       (∃ status, e = Event.sessionInit (FetchOutcome.failed status))) := by
  obtain ⟨t, ht, htne⟩ := jsTruthy_iff.mp hpresent
  cases e with
  | login outcome =>
      cases outcome with
      | ok data => simp [step, loginOnSuccess]
      | err detail => simp [step, loginOnError, ht]
  | register outcome =>
      cases outcome with
      | ok data => simp [step, registerOnSuccess]
      | err detail => simp [step, registerOnError, ht]
  | logoutEv server =>
      cases server <;> simp [step, logout, logoutSettled]
  | sessionInit fetch =>
      cases fetch with
      | ok u =>
          simp [step, resolveSession, hpresent, currentUserOnSuccess, ht,
            jsTruthy, htne]
      | failed status =>
          simp [step, resolveSession, hpresent, currentUserOnError, ht,
            jsTruthy, htne]
  | apiCallError status cfg =>
      by_cases h : status = some 401 ∧ cfg._retry = false
      · obtain ⟨h1, h2⟩ := h
        subst h1
        refine iff_of_true ?_ (Or.inl ⟨cfg, rfl, h2⟩)
        simp [step, responseErrorInterceptor, h2, reloadAt, startupState]
      · refine iff_of_false ?_ ?_
        · simp [step, responseErrorInterceptor, h, ht]
        · rintro (⟨cfg', heq, hr⟩ | ⟨srv, heq⟩ | ⟨status', heq⟩)
          · injection heq with hs hc
            exact h ⟨hs, hc ▸ hr⟩
          · exact Event.noConfusion heq
          · exact Event.noConfusion heq
  | oauthCallback token error =>
      refine iff_of_false ?_ ?_
      · simp only [step]
        unfold handleCallback
        split_ifs with h1 h2
        · simp [ht]
        · obtain ⟨s, hs, hsne⟩ := jsTruthy_iff.mp h2
          simp [hs]
        · simp [ht]
      · rintro (⟨cfg', heq, hr⟩ | ⟨srv, heq⟩ | ⟨status', heq⟩) <;>
          exact Event.noConfusion heq
  | forgotPassword okFlag =>
      simp [step, ht]
  | resetPassword okFlag =>
      simp [step, ht]

/-- Witness for C7 at a concrete authenticated state and a logout event. -/
theorem token_removal_triggers_witness :
    (step ⟨⟨some "t1", none⟩, some ⟨"u1", "a@b.com"⟩, true,
        some ⟨"u1", "a@b.com"⟩, [], [], none⟩
      (Event.logoutEv ServerCallResult.ok)).storage.accessToken = none :=
  (token_removal_triggers
      ⟨⟨some "t1", none⟩, some ⟨"u1", "a@b.com"⟩, true,
        some ⟨"u1", "a@b.com"⟩, [], [], none⟩
      (Event.logoutEv ServerCallResult.ok) (by decide)).mpr
    (Or.inr (Or.inl ⟨ServerCallResult.ok, rfl⟩))

/-- C8 counterexample: from an initialized anonymous session (no token, no
user — not mixed), the OAuth callback success path stores the token without
setting the user: its client-side navigation keeps the provider state, so
the operation ends with a token present and no user — a mixed state. -/
theorem session_mixed_state_counterexample :
    mixedFree ⟨⟨none, none⟩, none, true, none, [], [], none⟩ = true ∧
    mixedFree (step ⟨⟨none, none⟩, none, true, none, [], [], none⟩
        (Event.oauthCallback (some "tok") none)) = false := by
  decide

/-- C8 amended: every operation except the OAuth callback success path
leaves the session unmixed — after login, register, logout, session
resolution (from a state with no resolved user, or any unmixed state), a
401 teardown with its reload, a passed-through failure, and the OAuth
callback error and missing-token branches, the stored token is truthy
exactly when a user is present; only a callback carrying a truthy token and
no truthy error breaks this. -/
theorem session_mixed_state_preserved (st : AppState) (e : Event)
    (hpre : mixedFree st = true ∨
      (∃ f, e = Event.sessionInit f ∧ st.user = none))
    (hwf : eventWellformed e = true)
    (hoauth : ∀ tok er, e = Event.oauthCallback tok er →
      (jsTruthy er = true ∨ jsTruthy tok = false)) :
    mixedFree (step st e) = true := by
  cases e with
  | login outcome =>
      cases outcome with
      | ok data =>
          simp [eventWellformed] at hwf
          simp [step, loginOnSuccess, mixedFree, jsTruthy, hwf]
      | err detail =>
          obtain hm | ⟨f, heq, _⟩ := hpre
          · simpa [step, loginOnError, mixedFree] using hm
          · exact Event.noConfusion heq
  | register outcome =>
      cases outcome with
      | ok data =>
          simp [eventWellformed] at hwf
          simp [step, registerOnSuccess, mixedFree, jsTruthy, hwf]
      | err detail =>
          obtain hm | ⟨f, heq, _⟩ := hpre
          · simpa [step, registerOnError, mixedFree] using hm
          · exact Event.noConfusion heq
  | logoutEv server =>
      cases server <;> simp [step, logout, logoutSettled, mixedFree, jsTruthy]
  | sessionInit fetch =>
      by_cases htok : jsTruthy st.storage.accessToken = true
      · cases fetch with
        | ok u =>
            simp [step, resolveSession, htok, currentUserOnSuccess, mixedFree]
        | failed status =>
            simp only [step, resolveSession, htok, if_true,
              currentUserOnError]
            simp [mixedFree, jsTruthy]
      · have htok' : jsTruthy st.storage.accessToken = false := by
          cases h : jsTruthy st.storage.accessToken
          · rfl
          · exact absurd h htok
        have huser : st.user = none := by
          obtain hm | ⟨f, heq, hu⟩ := hpre
          · cases hu : st.user with
            | none => rfl
            | some u => simp [mixedFree, htok', hu] at hm
          · exact hu
        simp [step, resolveSession, htok', initEffect, mixedFree, huser]
  | apiCallError status cfg =>
      by_cases h : status = some 401 ∧ cfg._retry = false
      · obtain ⟨h1, h2⟩ := h
        subst h1
        simp [step, responseErrorInterceptor, h2, reloadAt, startupState,
          mixedFree, jsTruthy]
      · obtain hm | ⟨f, heq, _⟩ := hpre
        · simpa [step, responseErrorInterceptor, h, mixedFree] using hm
        · exact Event.noConfusion heq
  | oauthCallback tok er =>
      obtain hm | ⟨f, heq, _⟩ := hpre
      · obtain her | htokf := hoauth tok er rfl
        · simpa [step, handleCallback, her, mixedFree] using hm
        · by_cases her : jsTruthy er = true
          · simpa [step, handleCallback, her, mixedFree] using hm
          · have her' : jsTruthy er = false := by
              cases h : jsTruthy er
              · rfl
              · exact absurd h her
            simpa [step, handleCallback, her', htokf, mixedFree] using hm
      · exact Event.noConfusion heq
  | forgotPassword okFlag =>
      obtain hm | ⟨f, heq, _⟩ := hpre
      · simpa [step, mixedFree] using hm
      · exact Event.noConfusion heq
  | resetPassword okFlag =>
      obtain hm | ⟨f, heq, _⟩ := hpre
      · simpa [step, mixedFree] using hm
      · exact Event.noConfusion heq

/-- Witness for C8 at an anonymous unmixed state and a wellformed login
success. -/
theorem session_mixed_state_preserved_witness :
    mixedFree (step ⟨⟨none, none⟩, none, true, none, [], [], none⟩
        (Event.login (MutationOutcome.ok ⟨"t1", ⟨"u1", "a@b.com"⟩⟩))) =
      true :=
  session_mixed_state_preserved
    ⟨⟨none, none⟩, none, true, none, [], [], none⟩
    (Event.login (MutationOutcome.ok ⟨"t1", ⟨"u1", "a@b.com"⟩⟩))
    (Or.inl (by decide)) (by decide)
    (fun tok er h => Event.noConfusion h)
